import Mathlib

/-!
# Verification of the ring-configurator core (src/src/App.tsx)

Shallow embedding of the procedural geometry and slot-placement engine of the
ring configurator:

* `angleForIndex` — slot index to angle mapping (source lines 42–46);
* `Band` — extruded band geometry parameters (lines 56–79);
* the zodiac/stone catalogs and slot variants (lines 98–131);
* `makeZodiacTexture` / `makeTextTexture` — texture rasterization parameters
  (lines 134–173);
* `DecalMarks` — per-slot decal anchor/orientation (lines 176–224);
* `Gems` — per-slot gem placement and material resolution (lines 227–291);
* the diagnostics record `tests` (lines 363–367).

Real-valued geometry (angles, trigonometry) is embedded over `ℝ`; the purely
arithmetic/validation parts are embedded over `ℚ` and `String` so they stay
decidable and executable.
-/

namespace Ring1

/-! ## Vec3: the fragment of THREE.Vector3 the source uses -/

/-- A 3D vector, as used by `THREE.Vector3` in the source. -/
structure Vec3 where
  x : ℝ
  y : ℝ
  z : ℝ

namespace Vec3

@[ext] theorem ext_xyz {a b : Vec3} (hx : a.x = b.x) (hy : a.y = b.y)
    (hz : a.z = b.z) : a = b := by
  cases a; cases b; simp_all

/-- `THREE.Vector3.multiplyScalar`. -/
noncomputable def multiplyScalar (v : Vec3) (s : ℝ) : Vec3 :=
  ⟨v.x * s, v.y * s, v.z * s⟩

/-- `THREE.Vector3.length`: the Euclidean norm. -/
noncomputable def length (v : Vec3) : ℝ :=
  Real.sqrt (v.x * v.x + v.y * v.y + v.z * v.z)

/-- `THREE.Vector3.normalize`: `divideScalar(length() || 1)` — divides by the
norm, or by 1 when the norm is 0 (so the zero vector is left unchanged). -/
noncomputable def normalize (v : Vec3) : Vec3 :=
  v.multiplyScalar (1 / (if v.length = 0 then 1 else v.length))

theorem normalize_of_length_one {v : Vec3} (h : v.length = 1) :
    v.normalize = v := by
  unfold normalize
  rw [h]
  simp [multiplyScalar]

end Vec3

/-! ## SlotAngleMapper (source lines 42–46)

```ts
function angleForIndex(i: number, total = 12) {
  const step = (Math.PI * 2) / total;
  const start = Math.PI / 2; // +Z is front/top
  return start - i * step; // clockwise
}
``` -/

/-- `angleForIndex(i, total)` from the source. -/
noncomputable def angleForIndex (i : ℕ) (total : ℕ) : ℝ :=
  let step := (Real.pi * 2) / total
  let start := Real.pi / 2
  start - i * step

theorem angleForIndex_def (i total : ℕ) :
    angleForIndex i total = Real.pi / 2 - i * ((Real.pi * 2) / total) := rfl

/-- The unit direction in the horizontal (XZ) plane at angle `a`:
`(cos a, 0, sin a)`, the direction both `DecalMarks` and `Gems` build. -/
noncomputable def dirAt (a : ℝ) : Vec3 := ⟨Real.cos a, 0, Real.sin a⟩

theorem dirAt_length (a : ℝ) : (dirAt a).length = 1 := by
  unfold dirAt Vec3.length
  have h : Real.cos a * Real.cos a + 0 * 0 + Real.sin a * Real.sin a = 1 := by
    have := Real.sin_sq_add_cos_sq a
    ring_nf
    ring_nf at this
    linarith
  rw [h, Real.sqrt_one]

/-! ## Domain data (source lines 98–131) -/

/-- One entry of the `ZODIAC` catalog. -/
structure ZodiacEntry where
  key : String
  glyph : String
  label : String
deriving DecidableEq, Repr

/-- The `ZODIAC` catalog (source lines 98–111). -/
def ZODIAC : List ZodiacEntry :=
  [ ⟨"aries", "♈", "Aries"⟩,
    ⟨"taurus", "♉", "Taurus"⟩,
    ⟨"gemini", "♊", "Gemini"⟩,
    ⟨"cancer", "♋", "Cancer"⟩,
    ⟨"leo", "♌", "Leo"⟩,
    ⟨"virgo", "♍", "Virgo"⟩,
    ⟨"libra", "♎", "Libra"⟩,
    ⟨"scorpio", "♏", "Scorpio"⟩,
    ⟨"sagittarius", "♐", "Sagittarius"⟩,
    ⟨"capricorn", "♑", "Capricorn"⟩,
    ⟨"aquarius", "♒", "Aquarius"⟩,
    ⟨"pisces", "♓", "Pisces"⟩ ]

/-- One entry of the `STONES` catalog: display color and optional
refractive index. -/
structure Stone where
  key : String
  label : String
  hex : String
  ior : Option ℚ
deriving DecidableEq, Repr

instance : Inhabited Stone := ⟨⟨"", "", "", none⟩⟩

/-- The `STONES` catalog (source lines 113–125); `diamond` is the
first entry. -/
def STONES : List Stone :=
  [ ⟨"diamond", "Diamond", "#ffffff", some 2.4⟩,
    ⟨"ruby", "Ruby", "#E0115F", some 1.77⟩,
    ⟨"sapphire", "Sapphire", "#0F52BA", some 1.77⟩,
    ⟨"emerald", "Emerald", "#50C878", some 1.58⟩,
    ⟨"amethyst", "Amethyst", "#9966CC", some 1.54⟩,
    ⟨"topaz", "Topaz", "#FFB000", some 1.61⟩,
    ⟨"aquamarine", "Aquamarine", "#7FFFD4", some 1.58⟩,
    ⟨"garnet", "Garnet", "#9B111E", some 1.79⟩,
    ⟨"peridot", "Peridot", "#B4C424", some 1.65⟩,
    ⟨"turquoise", "Turquoise", "#30D5C8", some 1.61⟩,
    ⟨"citrine", "Citrine", "#E4B700", some 1.55⟩ ]

/-- The tagged `Slot` variant (source lines 128–131). -/
inductive Slot where
  | zodiac (value : String)
  | stone (value : String)
  | text (value : String)
deriving DecidableEq, Repr

/-! ## MarkTextureRasterizer (source lines 134–173)

The canvas calls are summarized by the data they are given: canvas size,
font size in pixels, the exact string passed to `fillText`, and the fill
color. -/

/-- The observable parameters of a canvas-generated texture. -/
structure TextureSpec where
  size : ℕ
  fontPx : ℚ
  drawn : String
  color : String
deriving DecidableEq, Repr

/-- `makeZodiacTexture` (source lines 134–153): 1024×1024 canvas, font at
58% of canvas size, glyph looked up in `ZODIAC` with `"?"` as fallback. -/
def makeZodiacTexture (signKey : String) (color : String := "#3b3b3b") :
    TextureSpec :=
  { size := 1024
    fontPx := 1024 * 0.58
    drawn := ((ZODIAC.find? (fun z => z.key == signKey)).map
      (fun z => z.glyph)).getD "?"
    color := color }

/-- `makeTextTexture` (source lines 155–173): 1024×1024 canvas, font at 45%
of canvas size, the string drawn verbatim by `fillText`. -/
def makeTextTexture (text : String) (color : String := "#3b3b3b") :
    TextureSpec :=
  { size := 1024
    fontPx := 1024 * 0.45
    drawn := text
    color := color }

/-! ## BandMeshBuilder (source lines 49–94) -/

/-- The arguments the source hands to `THREE.ExtrudeGeometry` plus the
annular shape radii and the centering translation (source lines 56–79). -/
structure ExtrudeSpec where
  outerR : ℚ
  innerR : ℚ
  depth : ℚ
  bevelEnabled : Bool
  bevelSegments : ℕ
  bevelThickness : ℚ
  bevelSize : ℚ
  curveSegments : ℕ
  translateZ : ℚ
deriving DecidableEq, Repr

namespace Band

/-- `bevelT = Math.min(0.35, bandHeight * 0.22)` (source line 64). -/
def bevelT (bandHeight : ℚ) : ℚ := min 0.35 (bandHeight * 0.22)

/-- `bevelS = Math.min(0.6, bandWidth * 0.12)` (source line 65). -/
def bevelS (bandWidth : ℚ) : ℚ := min 0.6 (bandWidth * 0.12)

/-- The geometry `Band` builds (source lines 56–79). The source component
has no failure path whatsoever — it builds the extrusion for any parameter
values; the `Option` return type models the "yields a mesh / yields no
mesh" interface of the spec, and the body is always `some`. -/
def build (innerR bandWidth bandHeight : ℚ) : Option ExtrudeSpec :=
  some
    { outerR := innerR + bandWidth
      innerR := innerR
      depth := bandHeight
      bevelEnabled := true
      bevelSegments := 3
      bevelThickness := bevelT bandHeight
      bevelSize := bevelS bandWidth
      curveSegments := 128
      translateZ := -bandHeight / 2 }

end Band

/-! ## Diagnostics (source lines 363–367)

```ts
const tests = {
  twelveSlots: slots.length === 12,
  geometryValid: outerR > innerR && innerDiameter > 0 && bandHeight > 0,
  slotsValid: slots.every((s) => (s.kind === "zodiac" && ZODIAC.some(...))
    || (s.kind === "stone" && STONES.some(...)) || s.kind === "text"),
};
```
with `innerR = innerDiameter / 2` and `outerR = innerR + bandWidth`. -/

/-- The per-slot predicate inside `tests.slotsValid`. -/
def slotOk : Slot → Bool
  | .zodiac v => ZODIAC.any (fun z => z.key == v)
  | .stone v => STONES.any (fun st => st.key == v)
  | .text _ => true

/-- The three diagnostic booleans. -/
structure Diagnostics where
  twelveSlots : Bool
  geometryValid : Bool
  slotsValid : Bool
deriving DecidableEq, Repr

/-- `tests.twelveSlots`. -/
def twelveSlots (slots : List Slot) : Bool := slots.length == 12

/-- `tests.geometryValid`, a function of the geometry parameters only. -/
def geometryValid (innerDiameter bandWidth bandHeight : ℚ) : Bool :=
  let innerR := innerDiameter / 2
  let outerR := innerR + bandWidth
  decide (outerR > innerR) && decide (innerDiameter > 0) &&
    decide (bandHeight > 0)

/-- `tests.slotsValid`. -/
def slotsValid (slots : List Slot) : Bool := slots.all slotOk

/-- The whole `tests` record. -/
def tests (innerDiameter bandWidth bandHeight : ℚ) (slots : List Slot) :
    Diagnostics :=
  { twelveSlots := twelveSlots slots
    geometryValid := geometryValid innerDiameter bandWidth bandHeight
    slotsValid := slotsValid slots }

/-! ## DecalProjector: `DecalMarks` (source lines 176–224)

The loop `for (let i = 0; i < 12; i++)` reads `slots[i]`, skips it when it
is absent (`!s`) or a stone (`s.kind === "stone"`), and otherwise pushes
one decal mesh. The loop skeleton (which indices/slots produce an item) is
embedded as a computable `filterMap` over `List.range 12`; the geometry of
each produced item is embedded as a map over the skeleton. (The early
return for a not-yet-mounted target mesh ref is React-lifecycle plumbing;
we model the state with the band mesh present.) -/

/-- The decal loop's skip test at one index: `slots[i]` is skipped when
absent (`!s`) or a stone (`s.kind === "stone"`), kept otherwise
(source line 202). -/
def decalPick (slots : List Slot) (i : ℕ) : Option (ℕ × Slot) :=
  match (slots[i]? : Option Slot) with
  | some (.stone _) => none
  | some s => some (i, s)
  | none => none

/-- The (index, slot) pairs that survive the decal loop's skip test
`if (!s || s.kind === "stone") continue` (source line 202). -/
def decalSlots (slots : List Slot) : List (ℕ × Slot) :=
  (List.range 12).filterMap (decalPick slots)

/-- One decal mesh item: anchor position, the `setFromUnitVectors`
arguments of its orientation quaternion (forward axis and target normal),
the `DecalGeometry` size box, and the texture. -/
structure DecalItem where
  index : ℕ
  pos : Vec3
  projFrom : Vec3
  projTo : Vec3
  sizeVec : Vec3
  tex : TextureSpec

/-- The decal item built for index `i` holding slot `s`
(source lines 204–218). -/
noncomputable def makeDecalItem (innerR outerR size : ℝ) (inside : Bool)
    (markColor : String) (i : ℕ) (s : Slot) : DecalItem :=
  let a := angleForIndex i 12
  let radius := if inside then innerR + 0.05 else outerR - 0.05
  let pos : Vec3 := ⟨Real.cos a * radius, 0, Real.sin a * radius⟩
  let normal :=
    ((dirAt a).multiplyScalar (if inside then -1 else 1)).normalize
  let depth := max 0.6 (size * 0.5)
  let tex :=
    match s with
    | .zodiac v => makeZodiacTexture v markColor
    | .stone v => makeTextTexture v markColor
    | .text v => makeTextTexture v markColor
  { index := i
    pos := pos
    projFrom := ⟨0, 0, 1⟩
    projTo := normal
    sizeVec := ⟨size, size, depth⟩
    tex := tex }

/-- The full list of decal items `DecalMarks` produces. -/
noncomputable def decalMarks (innerR outerR size : ℝ) (slots : List Slot)
    (inside : Bool) (markColor : String := "#3b3b3b") : List DecalItem :=
  (decalSlots slots).map (fun p =>
    makeDecalItem innerR outerR size inside markColor p.1 p.2)

/-! ## GemPlacementEngine: `Gems` (source lines 227–291) -/

/-- The gem loop's skip test at one index: only a present stone slot is
kept (source line 246). -/
def gemPick (slots : List Slot) (i : ℕ) : Option (ℕ × String) :=
  match (slots[i]? : Option Slot) with
  | some (.stone v) => some (i, v)
  | _ => none

/-- The (index, stone key) pairs that survive the gem loop's skip test
`if (!s || s.kind !== "stone") continue` (source line 246). -/
def gemSlots (slots : List Slot) : List (ℕ × String) :=
  (List.range 12).filterMap (gemPick slots)

/-- `STONES.find((st) => st.key === s.value) || STONES[0]`
(source line 257). -/
def resolveStone (v : String) : Stone :=
  (STONES.find? (fun st => st.key == v)).getD STONES.headI

/-- One gem group: position, the `setFromUnitVectors` arguments of its
orientation, gem scale, resolved stone material, and the seat cylinder
parameters. -/
structure GemItem where
  index : ℕ
  pos : Vec3
  upFrom : Vec3
  upTo : Vec3
  gemSize : ℝ
  stone : Stone
  color : String
  ior : ℚ
  seatOffsetY : ℝ
  seatTopR : ℝ
  seatBottomR : ℝ
  seatHeight : ℝ

/-- The gem item built for index `i` holding stone key `v`
(source lines 247–284). -/
noncomputable def makeGemItem (innerR outerR height size : ℝ)
    (inside : Bool) (i : ℕ) (v : String) : GemItem :=
  let a := angleForIndex i 12
  let normal :=
    ((dirAt a).multiplyScalar (if inside then -1 else 1)).normalize
  let baseR := if inside then innerR else outerR
  let gemSize := max 0.8 (size * 0.55)
  let offset := gemSize * 0.6
  let pos := normal.multiplyScalar (baseR + (if inside then -offset else offset))
  let stone := resolveStone v
  { index := i
    pos := pos
    upFrom := ⟨0, 1, 0⟩
    upTo := normal
    gemSize := gemSize
    stone := stone
    color := stone.hex
    ior := stone.ior.getD 1.6
    seatOffsetY := -(gemSize * 0.52)
    seatTopR := gemSize * 0.58
    seatBottomR := gemSize * 0.62
    seatHeight := min 0.5 (height * 0.3) }

/-- The full list of gem items `Gems` produces. -/
noncomputable def gems (innerR outerR height size : ℝ) (slots : List Slot)
    (inside : Bool) : List GemItem :=
  (gemSlots slots).map (fun p =>
    makeGemItem innerR outerR height size inside p.1 p.2)

/-! ## Concrete configurations used in instance theorems -/

/-- The configuration of the C6 instance (and the source's `initialSlots`):
slot 0 = Zodiac("aries"), slots 1–11 the remaining zodiac signs. -/
def zodiacConfig : List Slot := ZODIAC.map (fun z => Slot.zodiac z.key)

/-- A 12-entry configuration whose slot 0 holds the unrecognized stone key
`"opal"`; the other 11 slots hold valid zodiac signs. -/
def badStoneConfig : List Slot :=
  Slot.stone "opal" :: (ZODIAC.drop 1).map (fun z => Slot.zodiac z.key)

/-- An 11-entry configuration of valid zodiac slots. -/
def elevenConfig : List Slot := (ZODIAC.drop 1).map (fun z => Slot.zodiac z.key)

/-- A 12-entry configuration whose slot 0 holds a 7-character text,
the other 11 slots valid zodiac signs. -/
def sevenCharConfig : List Slot :=
  Slot.text "ABCDEFG" :: (ZODIAC.drop 1).map (fun z => Slot.zodiac z.key)

/-! ## Helper lemmas -/

/-- Scaling a vector scales its Euclidean length by the absolute value. -/
theorem Vec3.length_multiplyScalar (v : Vec3) (s : ℝ) :
    (v.multiplyScalar s).length = |s| * v.length := by
  unfold Vec3.multiplyScalar Vec3.length
  have h : v.x * s * (v.x * s) + v.y * s * (v.y * s) + v.z * s * (v.z * s) =
      (s * s) * (v.x * v.x + v.y * v.y + v.z * v.z) := by ring
  rw [h, Real.sqrt_mul (mul_self_nonneg s), Real.sqrt_mul_self_eq_abs]

/-- Normalizing `(cos a, 0, sin a) * c` is the identity when `|c| = 1` —
the `normalize()` calls in `DecalMarks` and `Gems` are no-ops. -/
theorem dir_scale_normalize (a c : ℝ) (hc : |c| = 1) :
    ((dirAt a).multiplyScalar c).normalize = (dirAt a).multiplyScalar c := by
  apply Vec3.normalize_of_length_one
  rw [Vec3.length_multiplyScalar, dirAt_length, mul_one, hc]

/-- The sign factor `inside ? -1 : 1` has absolute value 1. -/
theorem abs_sign_factor (inside : Bool) :
    |(if inside then (-1 : ℝ) else 1)| = 1 := by
  cases inside <;> norm_num

/-- Is an optional slot entry one that produces a decal (present and not a
stone)? The complement of the decal loop's skip test. -/
def isMark : Option Slot → Bool
  | some (.zodiac _) => true
  | some (.text _) => true
  | _ => false

/-- The first components of the surviving decal pairs are exactly the
indices passing the mark test. -/
theorem decalPick_map_fst (slots : List Slot) (l : List ℕ) :
    (l.filterMap (decalPick slots)).map Prod.fst =
      l.filter (fun i => isMark (slots[i]? : Option Slot)) := by
  induction l with
  | nil => rfl
  | cons a t ih =>
    rw [List.filterMap_cons, List.filter_cons]
    cases h : (slots[a]? : Option Slot) with
    | none => simp [decalPick, h, isMark, ih]
    | some s => cases s <;> simp [decalPick, h, isMark, ih]

/-- Each defined entry among the scanned indices feeds exactly one of the
two producers: decal counts plus gem counts equal the count of present
entries. -/
theorem picks_count (slots : List Slot) (l : List ℕ) :
    (l.filterMap (decalPick slots)).length +
      (l.filterMap (gemPick slots)).length =
      (l.filter (fun i => (slots[i]? : Option Slot).isSome)).length := by
  induction l with
  | nil => rfl
  | cons a t ih =>
    rw [List.filterMap_cons, List.filterMap_cons, List.filter_cons]
    cases h : (slots[a]? : Option Slot) with
    | none => simpa [decalPick, gemPick, h] using ih
    | some s => cases s <;> simp [decalPick, gemPick, h] <;> omega

/-- Among the first `m` indices, exactly `min slots.length m` entries are
present. -/
theorem count_defined (slots : List Slot) (m : ℕ) :
    ((List.range m).filter
      (fun i => (slots[i]? : Option Slot).isSome)).length =
      min slots.length m := by
  induction m with
  | zero => simp
  | succ m ih =>
    rw [List.range_succ, List.filter_append, List.length_append, ih]
    by_cases h : m < slots.length
    · have hs : (slots[m]? : Option Slot).isSome = true := by
        rw [List.getElem?_eq_getElem h]; rfl
      simp only [List.filter_cons, List.filter_nil, hs]
      simp; omega
    · have hs : (slots[m]? : Option Slot).isSome = false := by
        rw [List.getElem?_eq_none (Nat.le_of_not_lt h)]; rfl
      simp only [List.filter_cons, List.filter_nil, hs]
      simp; omega

/-! ## C1 — SlotAngleMapper -/

/-- C1: for every index `i` in 0..11, `angleForIndex(i, 12)` equals the
reference angle π/2 minus `i·(2π/12)`; `angleForIndex(0, 12) = π/2`;
subsequent indices proceed clockwise (strictly decreasing angle); and the
12 produced angles are pairwise distinct modulo 2π (360°). -/
theorem angleForIndex_spec :
    angleForIndex 0 12 = Real.pi / 2 ∧
    (∀ i : ℕ, i < 12 →
      angleForIndex i 12 = Real.pi / 2 - i * (2 * Real.pi / 12)) ∧
    (∀ i : ℕ, angleForIndex (i + 1) 12 < angleForIndex i 12) ∧
    (∀ i j : ℕ, i < 12 → j < 12 → i ≠ j → ∀ k : ℤ,
      angleForIndex i 12 - angleForIndex j 12 ≠ k * (2 * Real.pi)) := by
  have hπ : (0 : ℝ) < Real.pi := Real.pi_pos
  refine ⟨by simp [angleForIndex], fun i _ => by unfold angleForIndex; push_cast; ring,
    fun i => ?_, fun i j hi hj hij k h => ?_⟩
  · unfold angleForIndex
    have : (0 : ℝ) < Real.pi * 2 / 12 := by positivity
    push_cast
    nlinarith
  · have h2 : ((j : ℝ) - i) * Real.pi = (12 * k) * Real.pi := by
      unfold angleForIndex at h
      push_cast at h
      linear_combination 6 * h
    have h3 : ((j : ℝ) - i) = 12 * k := mul_right_cancel₀ (ne_of_gt hπ) h2
    have h4 : (j : ℤ) - i = 12 * k := by exact_mod_cast h3
    omega

/-- C1 witness: concrete instances of each clause at indices 1 and 2. -/
theorem angleForIndex_spec_witness :
    angleForIndex 1 12 = Real.pi / 2 - ((1 : ℕ) : ℝ) * (2 * Real.pi / 12) ∧
    ∀ k : ℤ, angleForIndex 1 12 - angleForIndex 2 12 ≠ k * (2 * Real.pi) :=
  ⟨angleForIndex_spec.2.1 1 (by decide),
   fun k => angleForIndex_spec.2.2.2 1 2 (by decide) (by decide) (by decide) k⟩

/-! ## C2 — does the band builder refuse degenerate geometry? -/

/-- C2 counterexample: at band width `w = 0 ≤ 0` (inner radius 9, height
2.2) the band component still yields a mesh — there is no refusal path. -/
theorem band_build_no_refusal :
    (0 : ℚ) ≤ 0 ∧ Band.build 9 0 2.2 ≠ none :=
  ⟨le_refl 0, by decide⟩

/-- C2 amended: the band component builds a mesh for every parameter value
(it never refuses); a degenerate `w ≤ 0` or `h ≤ 0` is surfaced only
through the separate validator, whose `geometryValid` diagnostic is then
false. -/
theorem band_build_total_and_diagnosed (innerR w h d : ℚ) :
    (Band.build innerR w h).isSome = true ∧
    (w ≤ 0 ∨ h ≤ 0 → geometryValid d w h = false) := by
  refine ⟨rfl, fun hc => ?_⟩
  rcases hc with hw | hh
  · have h1 : ¬ (d / 2 + w > d / 2) := by linarith
    simp [geometryValid, h1]
  · have h1 : ¬ (h > 0) := hh.not_lt
    simp [geometryValid, h1]

/-- C2 amended witness: at `w = 0` a mesh is still produced and the
geometry diagnostic is false. -/
theorem band_build_total_and_diagnosed_witness :
    (Band.build 9 0 2.2).isSome = true ∧ geometryValid 18 0 2.2 = false :=
  ⟨(band_build_total_and_diagnosed 9 0 2.2 18).1,
   (band_build_total_and_diagnosed 9 0 2.2 18).2 (Or.inl le_rfl)⟩

/-! ## C4 — is over-long text rejected by validation? -/

/-- C4 counterexample: a 12-entry configuration whose slot 0 holds the
7-character text `"ABCDEFG"` is NOT reported as malformed — the
validator's slot check is true (text slots pass regardless of length). -/
theorem sevenChar_text_not_flagged :
    ("ABCDEFG".length = 7) ∧
    slotsValid sevenCharConfig = true ∧
    twelveSlots sevenCharConfig = true := by
  refine ⟨rfl, by decide, by decide⟩

/-- C4 amended: the validator's slot check accepts a text slot of any
length (the 6-character maximum exists only as the UI input's `maxLength`
attribute), and the rasterizer is truncation-free: it draws the given
string verbatim, in particular both 6- and 7-character strings. -/
theorem text_valid_and_untruncated (str c : String) :
    slotOk (Slot.text str) = true ∧ (makeTextTexture str c).drawn = str :=
  ⟨rfl, rfl⟩

/-! ## C7 — bevel clamping invariant -/

/-- C7: for every positive band height `h` and width `w`, the bevel
parameters satisfy `bevelT ≤ 0.35·h` and `bevelS ≤ 0.6·w`. -/
theorem bevel_clamped (w h : ℚ) (hw : 0 < w) (hh : 0 < h) :
    Band.bevelT h ≤ 0.35 * h ∧ Band.bevelS w ≤ 0.6 * w := by
  constructor
  · unfold Band.bevelT
    rcases le_total (0.35 : ℚ) (h * 0.22) with hc | hc
    · rw [min_eq_left hc]; nlinarith
    · rw [min_eq_right hc]; nlinarith
  · unfold Band.bevelS
    rcases le_total (0.6 : ℚ) (w * 0.12) with hc | hc
    · rw [min_eq_left hc]; nlinarith
    · rw [min_eq_right hc]; nlinarith

/-- C7 witness: band width 3 and band height 2. -/
theorem bevel_clamped_witness :
    Band.bevelT 2 ≤ 0.35 * 2 ∧ Band.bevelS 3 ≤ 0.6 * 3 :=
  bevel_clamped 3 2 (by decide) (by decide)

/-! ## C8 — independence of the three validator checks -/

/-- C8: the validator's checks are independent: a configuration holding an
unrecognized stone key makes `slotsValid` false while `twelveSlots` (for a
12-entry list) and `geometryValid` (a function of geometry alone) are
unaffected; an 11-entry list makes `twelveSlots` false. -/
theorem validator_checks_independent (d w h : ℚ) (slots : List Slot)
    (i : ℕ) (k : String)
    (hget : (slots[i]? : Option Slot) = some (Slot.stone k))
    (hk : ∀ st ∈ STONES, st.key ≠ k) :
    (tests d w h slots).slotsValid = false ∧
    (slots.length = 12 → (tests d w h slots).twelveSlots = true) ∧
    (geometryValid d w h = true → (tests d w h slots).geometryValid = true) ∧
    (∀ slots2 : List Slot, slots2.length = 11 →
      twelveSlots slots2 = false) := by
  refine ⟨?_, fun h12 => ?_, fun hg => hg, fun slots2 h11 => ?_⟩
  · have hmem : Slot.stone k ∈ slots := by
      rcases List.getElem?_eq_some_iff.mp hget with ⟨hlt, hEq⟩
      exact hEq ▸ List.getElem_mem hlt
    have hfail : slotOk (Slot.stone k) = false := by
      apply List.any_eq_false.mpr
      intro st hst
      simp [hk st hst]
    show slotsValid slots = false
    unfold slotsValid
    exact List.all_eq_false.mpr ⟨Slot.stone k, hmem, by simp [hfail]⟩
  · show twelveSlots slots = true
    simp [twelveSlots, h12]
  · simp [twelveSlots, h11]

/-- C8 witness: slot 0 holding the unknown stone key `"opal"` in a
12-entry configuration with the default geometry, and an 11-entry
configuration. -/
theorem validator_checks_independent_witness :
    (tests 18 3 2 badStoneConfig).slotsValid = false ∧
    (tests 18 3 2 badStoneConfig).twelveSlots = true ∧
    (tests 18 3 2 badStoneConfig).geometryValid = true ∧
    twelveSlots elevenConfig = false := by
  have h := validator_checks_independent 18 3 2 badStoneConfig 0 "opal"
    (by decide) (by decide)
  exact ⟨h.1, h.2.1 (by decide),
    h.2.2.1 (by norm_num [geometryValid]),
    h.2.2.2 elevenConfig (by decide)⟩

/-! ## C9 — unknown catalog keys never fail -/

/-- C9: an unknown zodiac key rasterizes as the placeholder glyph `"?"`,
and an unknown stone key resolves to the catalog's first entry (diamond)
both in `resolveStone` and in the gem item the engine builds. -/
theorem unknownKey_fallbacks (zkey skey c : String)
    (innerR outerR height size : ℝ) (inside : Bool) (i : ℕ)
    (hz : ∀ z ∈ ZODIAC, z.key ≠ zkey)
    (hs : ∀ st ∈ STONES, st.key ≠ skey) :
    (makeZodiacTexture zkey c).drawn = "?" ∧
    resolveStone skey = ⟨"diamond", "Diamond", "#ffffff", some 2.4⟩ ∧
    (makeGemItem innerR outerR height size inside i skey).stone =
      ⟨"diamond", "Diamond", "#ffffff", some 2.4⟩ := by
  have hzf : ZODIAC.find? (fun z => z.key == zkey) = none :=
    List.find?_eq_none.mpr (fun z hzm => by simp [hz z hzm])
  have hsf : STONES.find? (fun st => st.key == skey) = none :=
    List.find?_eq_none.mpr (fun st hst => by simp [hs st hst])
  have h1 : (makeZodiacTexture zkey c).drawn = "?" := by
    simp [makeZodiacTexture, hzf]
  have h2 : resolveStone skey = ⟨"diamond", "Diamond", "#ffffff", some 2.4⟩ := by
    simp [resolveStone, hsf]
    rfl
  exact ⟨h1, h2, h2⟩

/-- C9 witness: the unknown zodiac key `"ophiuchus"` and the unknown stone
key `"opal"`. -/
theorem unknownKey_fallbacks_witness :
    (makeZodiacTexture "ophiuchus" "#3b3b3b").drawn = "?" ∧
    resolveStone "opal" = ⟨"diamond", "Diamond", "#ffffff", some 2.4⟩ ∧
    (makeGemItem 9 12 2.2 2.6 false 3 "opal").stone =
      ⟨"diamond", "Diamond", "#ffffff", some 2.4⟩ :=
  unknownKey_fallbacks "ophiuchus" "opal" "#3b3b3b" 9 12 2.2 2.6 false 3
    (by decide) (by decide)

/-! ## C5 — decal anchor position and orientation -/

/-- C5: every decal item produced for a glyph/text slot at index `i` is
anchored at `(cos a, 0, sin a)` scaled to `innerR + 0.05` (inside) or
`outerR - 0.05` (outside) with `a = angleForIndex i 12`, and its
orientation quaternion maps the forward axis `(0, 0, 1)` to the surface
normal `(cos a, 0, sin a)`, inverted for inside placement (the
`normalize()` call is the identity on this unit normal). -/
theorem decal_anchor_orientation (innerR outerR size : ℝ)
    (slots : List Slot) (inside : Bool) (mc : String) (i : ℕ) (s : Slot)
    (hmem : (i, s) ∈ decalSlots slots) :
    makeDecalItem innerR outerR size inside mc i s ∈
      decalMarks innerR outerR size slots inside mc ∧
    (makeDecalItem innerR outerR size inside mc i s).pos =
      ⟨Real.cos (angleForIndex i 12) *
        (if inside then innerR + 0.05 else outerR - 0.05), 0,
       Real.sin (angleForIndex i 12) *
        (if inside then innerR + 0.05 else outerR - 0.05)⟩ ∧
    (makeDecalItem innerR outerR size inside mc i s).projFrom = ⟨0, 0, 1⟩ ∧
    (makeDecalItem innerR outerR size inside mc i s).projTo =
      ⟨Real.cos (angleForIndex i 12) * (if inside then -1 else 1), 0,
       Real.sin (angleForIndex i 12) * (if inside then -1 else 1)⟩ := by
  refine ⟨?_, rfl, rfl, ?_⟩
  · exact List.mem_map_of_mem
      (fun p : ℕ × Slot => makeDecalItem innerR outerR size inside mc p.1 p.2)
      hmem
  · show ((dirAt (angleForIndex i 12)).multiplyScalar
      (if inside then -1 else 1)).normalize = _
    rw [dir_scale_normalize _ _ (abs_sign_factor inside)]
    exact Vec3.ext_xyz rfl (zero_mul _) rfl

/-- C5 witness: a single text slot at index 0, outside placement. -/
theorem decal_anchor_orientation_witness :
    makeDecalItem 9 12 2.6 false "#3b3b3b" 0 (Slot.text "AB") ∈
      decalMarks 9 12 2.6 [Slot.text "AB"] false "#3b3b3b" ∧
    (makeDecalItem 9 12 2.6 false "#3b3b3b" 0 (Slot.text "AB")).pos =
      ⟨Real.cos (angleForIndex 0 12) * (12 - 0.05), 0,
       Real.sin (angleForIndex 0 12) * (12 - 0.05)⟩ ∧
    (makeDecalItem 9 12 2.6 false "#3b3b3b" 0 (Slot.text "AB")).projTo =
      ⟨Real.cos (angleForIndex 0 12) * 1, 0,
       Real.sin (angleForIndex 0 12) * 1⟩ := by
  have h := decal_anchor_orientation 9 12 2.6 [Slot.text "AB"] false
    "#3b3b3b" 0 (Slot.text "AB") (by decide)
  exact ⟨h.1, h.2.1, h.2.2.2⟩

/-! ## C6 — one decal per zodiac/text slot -/

/-- C6: for every slot configuration, the decal path produces exactly one
item per present zodiac/text slot among indices 0–11 and none for stone
slots (the produced indices are exactly the filtered in-range indices);
in particular, the 12-zodiac configuration (slot 0 = aries, slots 1–11
the remaining signs) produces exactly 12 items. -/
theorem decalMarks_one_per_mark_slot (innerR outerR size : ℝ)
    (slots : List Slot) (inside : Bool) (mc : String) :
    (decalMarks innerR outerR size slots inside mc).map
        (fun it => it.index) =
      (List.range 12).filter (fun i => isMark (slots[i]? : Option Slot)) ∧
    (decalMarks innerR outerR size zodiacConfig inside mc).length = 12 := by
  constructor
  · unfold decalMarks decalSlots
    rw [List.map_map]
    exact decalPick_map_fst slots (List.range 12)
  · unfold decalMarks
    rw [List.length_map]
    decide

/-! ## C10 — both generators are total and scan only indices 0–11 -/

/-- C10: for a slots array of any length, both generators are total and
consider only indices 0–11: entries past index 11 are irrelevant (the
output equals the output on `slots.take 12`), absent entries are skipped
without error, and together the two generators produce exactly one output
per present entry among indices 0–11 — so a configuration failing the
twelve-slot check still generates output for its defined in-range
slots. -/
theorem generators_total_first_twelve (innerR outerR height size : ℝ)
    (slots : List Slot) (inside : Bool) (mc : String) :
    decalMarks innerR outerR size slots inside mc =
      decalMarks innerR outerR size (slots.take 12) inside mc ∧
    gems innerR outerR height size slots inside =
      gems innerR outerR height size (slots.take 12) inside ∧
    (decalMarks innerR outerR size slots inside mc).length +
      (gems innerR outerR height size slots inside).length =
      min slots.length 12 := by
  have hpick : ∀ i ∈ List.range 12,
      ((slots.take 12)[i]? : Option Slot) = slots[i]? := fun i hi =>
    List.getElem?_take_of_lt (List.mem_range.mp hi)
  have hd : decalSlots (slots.take 12) = decalSlots slots := by
    unfold decalSlots
    exact List.filterMap_congr (fun i hi => by
      unfold decalPick; rw [hpick i hi])
  have hg : gemSlots (slots.take 12) = gemSlots slots := by
    unfold gemSlots
    exact List.filterMap_congr (fun i hi => by
      unfold gemPick; rw [hpick i hi])
  refine ⟨by unfold decalMarks; rw [hd], by unfold gems; rw [hg], ?_⟩
  unfold decalMarks gems
  rw [List.length_map, List.length_map]
  unfold decalSlots gemSlots
  rw [picks_count slots (List.range 12), count_defined slots 12]

/-! ## C3 — gem placement radius and direction -/

/-- C3: evaluation of the gem engine at the failing input
(inside placement, slot 0, `innerR = 9`, `outerR = 12`, `height = 2.2`,
`size = 2.6`, stone ruby). The slot angle is π/2, so the claim places the
gem center on the `+Z` ray at radius `innerR − 0.6·gemSize = 8.142`, at
`(0, 0, 8.142)`; the code instead multiplies the inward normal by that
radius and produces `(0, 0, −8.142)` — diametrically opposite the slot's
angular position. -/
theorem gems_inside_failing_input :
    (makeGemItem 9 12 2.2 2.6 true 0 "ruby").pos = ⟨0, 0, -8.142⟩ ∧
    (⟨Real.cos (angleForIndex 0 12) * (9 - max 0.8 (2.6 * 0.55) * 0.6), 0,
      Real.sin (angleForIndex 0 12) * (9 - max 0.8 (2.6 * 0.55) * 0.6)⟩ :
        Vec3) = ⟨0, 0, 8.142⟩ ∧
    (makeGemItem 9 12 2.2 2.6 true 0 "ruby").pos ≠
      ⟨Real.cos (angleForIndex 0 12) * (9 - max 0.8 (2.6 * 0.55) * 0.6), 0,
       Real.sin (angleForIndex 0 12) * (9 - max 0.8 (2.6 * 0.55) * 0.6)⟩ := by
  have ha : angleForIndex 0 12 = Real.pi / 2 := by
    simp [angleForIndex]
  have hmax : max (0.8 : ℝ) (2.6 * 0.55) = 1.43 := by
    rw [max_eq_right (by norm_num : (0.8 : ℝ) ≤ 2.6 * 0.55)]; norm_num
  have hpos : (makeGemItem 9 12 2.2 2.6 true 0 "ruby").pos =
      ((dirAt (angleForIndex 0 12)).multiplyScalar (-1)).normalize.multiplyScalar
        (9 + -(max 0.8 (2.6 * 0.55) * 0.6)) := rfl
  have hc1 : (makeGemItem 9 12 2.2 2.6 true 0 "ruby").pos = ⟨0, 0, -8.142⟩ := by
    rw [hpos, dir_scale_normalize _ _ (by norm_num : |(-1 : ℝ)| = 1), ha]
    unfold dirAt Vec3.multiplyScalar
    refine Vec3.ext_xyz ?_ ?_ ?_ <;>
      norm_num [Real.cos_pi_div_two, Real.sin_pi_div_two, hmax]
  have hc2 : (⟨Real.cos (angleForIndex 0 12) *
        (9 - max 0.8 (2.6 * 0.55) * 0.6), 0,
      Real.sin (angleForIndex 0 12) *
        (9 - max 0.8 (2.6 * 0.55) * 0.6)⟩ : Vec3) = ⟨0, 0, 8.142⟩ := by
    rw [ha, Real.cos_pi_div_two, Real.sin_pi_div_two, hmax]
    refine Vec3.ext_xyz ?_ ?_ ?_ <;> norm_num
  refine ⟨hc1, hc2, fun heq => ?_⟩
  rw [hc1, hc2] at heq
  have hz := congrArg Vec3.z heq
  norm_num at hz

end Ring1
